import Mathlib

/-
Verification of the Bond_Optimizer repository's constrained allocation
engine against its natural-language specification.

The Python sources are shallowly embedded as follows:
- pandas DataFrames of asset rows become lists of an `Asset` structure;
- floating-point numbers become rationals (the spec treats all numeric
  data as exact reals; no claim under verification depends on IEEE
  rounding of the data values themselves);
- the cvxpy LP backend is an external collaborator and is modelled as an
  oracle parameter returning one of optimal / infeasible / unbounded /
  numerical-failure, mirroring how cvxpy reports these conditions back
  to `build_and_solve` (infeasible and unbounded leave the variable's
  value as None; a numerical failure raises SolverError);
- Python exceptions become an explicit `PyError` value in an `Except`.
-/

namespace BondOpt

/-- One row of the asset universe, as consumed by `build_and_solve`
(model.py): the columns `yield`, `duration`, `quality_num`,
`liquidity_label`, `asset_level_min_weight`, `asset_level_max_weight`,
`sector`, plus the identity column from the data model (unused by the
engine). -/
structure Asset where
  id : String
  sector : String
  yield_ : ℚ
  duration : ℚ
  quality_num : ℚ
  liquidity_label : String
  min_weight : ℚ
  max_weight : ℚ
deriving DecidableEq

/-- Process-wide default sector bounds (config.py `SECTOR_BOUNDS`),
kept as an ordered association list since Python dicts preserve
insertion order. -/
def SECTOR_BOUNDS : List (String × ℚ × ℚ) :=
  [("TSY", (1/10, 1)),
   ("ABS", (0, 1/5)),
   ("MBS", (0, 2/5)),
   ("Corp", (0, 1/2)),
   ("High Yield", (0, 1/20))]

/-- Process-wide default duration band (config.py `DURATION_BOUNDS`). -/
def DURATION_BOUNDS : ℚ × ℚ := (2, 8)

/-- Process-wide Same-Day liquidity floor (config.py `MIN_SAME_DAY`). -/
def MIN_SAME_DAY : ℚ := 1/5

/-- Process-wide rating ceiling (config.py `MAX_RATING_NUM`). -/
def MAX_RATING_NUM : ℚ := 5

/-- The constraint configuration actually used by one solve. -/
structure Config where
  sector_bounds : List (String × ℚ × ℚ)
  duration_bounds : ℚ × ℚ
  min_same_day : ℚ
  max_rating_num : ℚ
deriving DecidableEq

/-- The configuration `build_and_solve` effectively uses for a call
(model.py lines 50-52 and 74-75): the sector and duration arguments
override the defaults when not None, while the Same-Day floor and the
rating ceiling are always the module constants. -/
def effectiveConfig (sb : Option (List (String × ℚ × ℚ)))
    (db : Option (ℚ × ℚ)) : Config :=
  { sector_bounds := sb.getD SECTOR_BOUNDS
    duration_bounds := db.getD DURATION_BOUNDS
    min_same_day := MIN_SAME_DAY
    max_rating_num := MAX_RATING_NUM }

/-- One linear constraint handed to the LP backend: either an
elementwise vector bound (cvxpy `w >= wmin` / `w <= wmax`) or a scalar
(in)equality on a dot product with the weight vector. -/
inductive LinCon where
  | vecGe (lb : List ℚ)
  | vecLe (ub : List ℚ)
  | eq (coeffs : List ℚ) (b : ℚ)
  | ge (coeffs : List ℚ) (b : ℚ)
  | le (coeffs : List ℚ) (b : ℚ)
deriving DecidableEq

/-- Dot product of two coefficient lists (numpy `a @ b` on matching
lengths). -/
def dot (a b : List ℚ) : ℚ :=
  (List.zipWith (fun x y => x * y) a b).sum

/-- The 0/1 membership mask for a sector over the universe's sector
column (model.py line 80, `sect == s`). -/
def sectorMask (sect : List String) (s : String) : List ℚ :=
  sect.map fun t => if t = s then 1 else 0

/-- The 0/1 membership mask for Same-Day liquidity (model.py line 62,
`liq == "Same Day"`). -/
def sameDayMask (df : List Asset) : List ℚ :=
  df.map fun a => if a.liquidity_label = "Same Day" then 1 else 0

/-- The per-sector constraints appended by the loop of model.py lines
79-83: for each configured sector, a lower-bound inequality only when
its lower cap is strictly positive, always followed by the upper-bound
inequality. -/
def sectorCons (sect : List String) : List (String × ℚ × ℚ) → List LinCon
  | [] => []
  | (s, lo, hi) :: rest =>
    (if 0 < lo then [LinCon.ge (sectorMask sect s) lo] else []) ++
      LinCon.le (sectorMask sect s) hi :: sectorCons sect rest

/-- The full constraint list handed to the solver, in the order built
by model.py lines 68-83. -/
def buildConstraints (df : List Asset) (cfg : Config) : List LinCon :=
  LinCon.vecGe (df.map Asset.min_weight) ::
  LinCon.vecLe (df.map Asset.max_weight) ::
  LinCon.eq (List.replicate df.length 1) 1 ::
  LinCon.ge (df.map Asset.duration) cfg.duration_bounds.1 ::
  LinCon.le (df.map Asset.duration) cfg.duration_bounds.2 ::
  LinCon.le (df.map Asset.quality_num) cfg.max_rating_num ::
  LinCon.ge (sameDayMask df) cfg.min_same_day ::
  sectorCons (df.map Asset.sector) cfg.sector_bounds

/-- Satisfaction of one constraint by a candidate weight vector. -/
def holds (w : List ℚ) : LinCon → Prop
  | .vecGe lb => List.Forall₂ (fun l x => l ≤ x) lb w
  | .vecLe ub => List.Forall₂ (fun u x => x ≤ u) ub w
  | .eq c b => dot c w = b
  | .ge c b => b ≤ dot c w
  | .le c b => dot c w ≤ b

/-- Modelled from the spec's words (section 4.1): the feasible region
described by the specification — per-asset box bounds, full allocation
(sum of all weights equals one), the duration band as two one-sided
inequalities, the rating ceiling, the Same-Day liquidity floor, and for
every configured sector an upper cap plus a lower cap only when the
lower cap is strictly positive. Written independently of
`buildConstraints` so the two can be compared. -/
def specFeasible (df : List Asset) (cfg : Config) (w : List ℚ) : Prop :=
  List.Forall₂ (fun (a : Asset) x => a.min_weight ≤ x) df w ∧
  List.Forall₂ (fun (a : Asset) x => x ≤ a.max_weight) df w ∧
  w.sum = 1 ∧
  cfg.duration_bounds.1 ≤ dot (df.map Asset.duration) w ∧
  dot (df.map Asset.duration) w ≤ cfg.duration_bounds.2 ∧
  dot (df.map Asset.quality_num) w ≤ cfg.max_rating_num ∧
  cfg.min_same_day ≤ dot (sameDayMask df) w ∧
  ∀ p ∈ cfg.sector_bounds,
    dot (sectorMask (df.map Asset.sector) p.1) w ≤ p.2.2 ∧
    (0 < p.2.1 → p.2.1 ≤ dot (sectorMask (df.map Asset.sector) p.1) w)

/-- An attribute of the cvxpy module namespace, as resolved by
`getattr(cp, solver)` in model.py line 90: either one of the solver
name constants (cvxpy exposes each supported solver name as a string
constant of the same spelling) or some other, non-solver attribute
(a class or function such as `Variable` or `sum`). -/
inductive CpAttr where
  | solverName (s : String)
  | other (s : String)
deriving DecidableEq

/-- Model of the cvxpy module's attribute table (external collaborator),
restricted to the solver constants named by the `build_and_solve`
docstring plus representative non-solver attributes. -/
def cpAttrs : List (String × CpAttr) :=
  [("ECOS", CpAttr.solverName "ECOS"),
   ("SCS", CpAttr.solverName "SCS"),
   ("OSQP", CpAttr.solverName "OSQP"),
   ("CVXOPT", CpAttr.solverName "CVXOPT"),
   ("Variable", CpAttr.other "Variable"),
   ("Problem", CpAttr.other "Problem"),
   ("Maximize", CpAttr.other "Maximize"),
   ("sum", CpAttr.other "sum")]

/-- The solver identifiers that name a supported LP backend. -/
def supportedSolvers : List String := ["ECOS", "SCS", "OSQP", "CVXOPT"]

/-- `getattr(cp, solver)`: none models the AttributeError raised when
the module has no such attribute. -/
def getattrCp (s : String) : Option CpAttr :=
  List.lookup s cpAttrs

/-- What the LP backend reports back for one problem. cvxpy leaves the
variable's value as None for an infeasible or unbounded problem and
raises SolverError on a numerical failure. -/
inductive SolveOutcome where
  | optimal (w : List ℚ)
  | infeasible
  | unbounded
  | fail
deriving DecidableEq

/-- The LP backend as an oracle: solver name, constraint list and
objective vector in, outcome out. -/
abbrev Backend := String → List LinCon → List ℚ → SolveOutcome

/-- A Python exception escaping the engine:
`attributeError` from `getattr(cp, solver)` on an unknown name;
`solveCallError` for the error cvxpy raises when a non-solver object is
passed as the solver argument of `prob.solve`;
`typeError` for the untyped numpy error raised by
`np.array(None).round(10)` when the problem was infeasible or unbounded
and the variable has no value;
`solverError` for cvxpy's SolverError on numerical failure;
`valueError` for numpy's error on a dimension mismatch in `a @ b`. -/
inductive PyError where
  | attributeError (name : String)
  | solveCallError
  | typeError
  | solverError
  | valueError
deriving DecidableEq

/-- The diagnostics record built in model.py lines 95-99. -/
structure Diag where
  yield_ : ℚ
  duration : ℚ
  rating_num : ℚ
deriving DecidableEq

/-- `np.round(x, 10)` on one entry (model.py line 94): rounding to ten
decimal digits. (numpy rounds halves to even; no claim under
verification evaluates this at an exact half-way point, so
round-half-up — floor after adding one half — is an adequate model.) -/
def roundTo10 (q : ℚ) : ℚ :=
  ((q * 10 ^ 10 + 1 / 2).floor : ℚ) / 10 ^ 10

/-- The diagnostics extraction of model.py lines 95-99, applied to the
solved (already rounded) weights: the three dot products
`y @ weights`, `dur @ weights`, `qnum @ weights`. numpy raises on a
dimension mismatch between the two operands of `@`, modelled as
`valueError`. A pure function of its two arguments. -/
def extract_diag (df : List Asset) (weights : List ℚ) : Except PyError Diag :=
  if df.length = weights.length then
    Except.ok
      { yield_ := dot (df.map Asset.yield_) weights
        duration := dot (df.map Asset.duration) weights
        rating_num := dot (df.map Asset.quality_num) weights }
  else
    Except.error PyError.valueError

/-- model.py `build_and_solve`: choose the effective configuration,
build the constraint list, resolve the solver attribute by name, invoke
the backend, and either round the returned weights and extract
diagnostics, or fail the way the Python code fails:
- unknown attribute name: AttributeError from `getattr` (line 90);
- known attribute that is not a solver: error raised inside
  `prob.solve` (line 91) after the arbitrary object was passed along;
- infeasible or unbounded: `w.value` is None and
  `np.array(None).round(10)` (line 94) raises an untyped error;
- numerical failure: cvxpy's SolverError propagates out of line 91. -/
def build_and_solve (bk : Backend) (df : List Asset)
    (sector_bounds : Option (List (String × ℚ × ℚ)) := none)
    (duration_bounds : Option (ℚ × ℚ) := none)
    (solver : String := "ECOS") : Except PyError (List ℚ × Diag) :=
  let cfg := effectiveConfig sector_bounds duration_bounds
  let cons := buildConstraints df cfg
  let obj := df.map Asset.yield_
  match getattrCp solver with
  | none => Except.error (PyError.attributeError solver)
  | some (CpAttr.other _) => Except.error PyError.solveCallError
  | some (CpAttr.solverName sname) =>
    match bk sname cons obj with
    | SolveOutcome.optimal v =>
      let weights := v.map roundTo10
      match extract_diag df weights with
      | Except.error e => Except.error e
      | Except.ok d => Except.ok (weights, d)
    | SolveOutcome.infeasible => Except.error PyError.typeError
    | SolveOutcome.unbounded => Except.error PyError.typeError
    | SolveOutcome.fail => Except.error PyError.solverError

/-- scenario.py `bump_yields`: a fresh copy of the universe with every
asset's yield increased by `bp / 10000`; the original list is untouched
(the embedding is pure, matching the DataFrame copy in the source). -/
def bump_yields (df : List Asset) (bp : ℤ := 100) : List Asset :=
  df.map fun a => { a with yield_ := a.yield_ + (bp : ℚ) / 10000 }

/-- The scenario label of scenario.py line 43: the shock formatted with
an explicit sign, then the suffix. -/
def shockLabel (shock : ℤ) : String :=
  (if shock < 0 then toString shock else "+" ++ toString shock) ++ "bp"

/-- scenario.py `run_scenarios`: for each shock in order, bump the
yields, call `build_and_solve` with all defaults, and record the
diagnostics under the shock's label. The Python loop has no exception
handling, so the first error propagates and the remaining shocks are
never attempted. -/
def run_scenarios (bk : Backend) (df : List Asset)
    (bps : List ℤ := [-100, 0, 100]) : Except PyError (List (String × Diag)) :=
  match bps with
  | [] => Except.ok []
  | shock :: rest =>
    match build_and_solve bk (bump_yields df shock) none none "ECOS" with
    | Except.error e => Except.error e
    | Except.ok (_, d) =>
      match run_scenarios bk df rest with
      | Except.error e => Except.error e
      | Except.ok out => Except.ok ((shockLabel shock, d) :: out)

/-- A raw row of the Sample Data sheet after the column normalization
of data_io.py lines 28-33, before the quality and liquidity mappings
are applied. -/
structure RawRow where
  sector : String
  yield_ : ℚ
  duration : ℚ
  quality : String
  liquidity_tier : ℤ
  asset_level_min_weight : ℚ
  asset_level_max_weight : ℚ
deriving DecidableEq

/-- A row returned by `load_assets`: the raw columns plus the two
derived columns. pandas `.map` leaves NaN where the key is absent from
the mapping dictionary, modelled as `none`. -/
structure LoadedRow where
  sector : String
  yield_ : ℚ
  duration : ℚ
  quality : String
  liquidity_tier : ℤ
  asset_level_min_weight : ℚ
  asset_level_max_weight : ℚ
  quality_num : Option ℚ
  liquidity_label : Option String
deriving DecidableEq

/-- The mapping step of data_io.py `load_assets` (lines 45-61): the
credit-quality dictionary and the liquidity-tier dictionary are applied
with pandas `.map`, which silently produces a missing value for any
unmapped key. Reading the workbook itself is external I/O; the two
dictionaries and the raw rows are parameters. -/
def load_assets (qmap : List (String × ℚ)) (lmap : List (ℤ × String))
    (rows : List RawRow) : List LoadedRow :=
  rows.map fun r =>
    { sector := r.sector
      yield_ := r.yield_
      duration := r.duration
      quality := r.quality
      liquidity_tier := r.liquidity_tier
      asset_level_min_weight := r.asset_level_min_weight
      asset_level_max_weight := r.asset_level_max_weight
      quality_num := List.lookup r.quality qmap
      liquidity_label := List.lookup r.liquidity_tier lmap }

/-- The Same-Day membership mask of model.py line 62 evaluated on
loaded rows: a missing (NaN) liquidity label never equals the string,
so such an asset is treated as a non-member of the bucket. -/
def sameDayMaskLoaded (rows : List LoadedRow) : List ℚ :=
  rows.map fun r => if r.liquidity_label = some "Same Day" then 1 else 0

/-- A concrete one-asset universe used to instantiate theorems. -/
def asset0 : Asset :=
  { id := "A1", sector := "TSY", yield_ := 1/100, duration := 5,
    quality_num := 2, liquidity_label := "Same Day",
    min_weight := 0, max_weight := 1 }

/-- Singleton universe of `asset0`. -/
def df0 : List Asset := [asset0]

/-- A backend that always returns the allocation putting all weight on
the single asset. -/
def bk0 : Backend := fun _ _ _ => SolveOutcome.optimal [1]

/-- A backend that always reports infeasibility. -/
def bkInfeasible : Backend := fun _ _ _ => SolveOutcome.infeasible

/-- A backend that always reports unboundedness. -/
def bkUnbounded : Backend := fun _ _ _ => SolveOutcome.unbounded

/-- A backend that always fails numerically. -/
def bkFail : Backend := fun _ _ _ => SolveOutcome.fail

/-- A backend that reports infeasibility exactly when the objective
vector is the zero yield vector (which on `df0` happens exactly for the
minus-100-basis-point scenario) and otherwise returns the full
allocation on the single asset. -/
def bkMixed : Backend := fun _ _ obj =>
  if obj = [(0 : ℚ)] then SolveOutcome.infeasible else SolveOutcome.optimal [1]

/-- A concrete credit-quality mapping dictionary. -/
def qmap0 : List (String × ℚ) := [("AAA", 1), ("AA", 2)]

/-- A concrete liquidity-tier mapping dictionary. -/
def lmap0 : List (ℤ × String) := [(1, "Same Day"), (2, "Next Day")]

/-- A raw row whose quality string and liquidity tier are absent from
`qmap0` and `lmap0`. -/
def rawRow0 : RawRow :=
  { sector := "TSY", yield_ := 1/50, duration := 5, quality := "ZZZ",
    liquidity_tier := 99, asset_level_min_weight := 0,
    asset_level_max_weight := 1 }

/-
Batteries marks the `Rat` arithmetic operations irreducible, which
blocks elaboration-time evaluation of concrete rational arithmetic;
restoring the default transparency for this file lets concrete
instances be settled by rfl. Soundness is unaffected: the kernel never
respects reducibility attributes.
-/
attribute [local semireducible] Rat.add Rat.mul Rat.sub Rat.inv Rat.ofScientific

@[simp] lemma holds_vecGe (w lb : List ℚ) :
    holds w (LinCon.vecGe lb) ↔ List.Forall₂ (fun l x => l ≤ x) lb w := Iff.rfl

@[simp] lemma holds_vecLe (w ub : List ℚ) :
    holds w (LinCon.vecLe ub) ↔ List.Forall₂ (fun u x => x ≤ u) ub w := Iff.rfl

@[simp] lemma holds_eq (w c : List ℚ) (b : ℚ) :
    holds w (LinCon.eq c b) ↔ dot c w = b := Iff.rfl

@[simp] lemma holds_ge (w c : List ℚ) (b : ℚ) :
    holds w (LinCon.ge c b) ↔ b ≤ dot c w := Iff.rfl

@[simp] lemma holds_le (w c : List ℚ) (b : ℚ) :
    holds w (LinCon.le c b) ↔ dot c w ≤ b := Iff.rfl

lemma dot_replicate_one : ∀ w : List ℚ, dot (List.replicate w.length 1) w = w.sum
  | [] => rfl
  | x :: xs => by
    simp only [List.length_cons, List.replicate_succ, dot, List.zipWith_cons_cons,
      List.sum_cons, one_mul]
    rw [← dot_replicate_one xs]
    rfl

lemma sectorCons_spec (sect : List String) (w : List ℚ)
    (sb : List (String × ℚ × ℚ)) :
    (∀ c ∈ sectorCons sect sb, holds w c) ↔
      ∀ p ∈ sb, dot (sectorMask sect p.1) w ≤ p.2.2 ∧
        (0 < p.2.1 → p.2.1 ≤ dot (sectorMask sect p.1) w) := by
  induction sb with
  | nil => simp [sectorCons]
  | cons p rest ih =>
    obtain ⟨s, lo, hi⟩ := p
    by_cases h0 : 0 < lo
    · simp only [sectorCons, if_pos h0, List.singleton_append,
        List.forall_mem_cons, holds_ge, holds_le, ih]
      constructor
      · rintro ⟨hge, hle, hrest⟩
        exact ⟨⟨hle, fun _ => hge⟩, hrest⟩
      · rintro ⟨⟨hle, hge⟩, hrest⟩
        exact ⟨hge h0, hle, hrest⟩
    · simp only [sectorCons, if_neg h0, List.nil_append, List.forall_mem_cons,
        holds_le, ih]
      constructor
      · rintro ⟨hle, hrest⟩
        exact ⟨⟨hle, fun h => absurd h h0⟩, hrest⟩
      · rintro ⟨⟨hle, _⟩, hrest⟩
        exact ⟨hle, hrest⟩

/-- Claim C4: for every universe and configuration, the constraint set
handed to the solver is satisfied by a weight vector exactly when the
specification's enumeration holds: per-asset box bounds, sum of all
weights equal to one, the duration band as two one-sided inequalities,
the rating ceiling, the Same-Day liquidity floor, and for every
configured sector the upper cap with the lower cap added only when
strictly positive. -/
theorem buildConstraints_matches_spec (df : List Asset) (cfg : Config) (w : List ℚ)
    (h : w.length = df.length) :
    (∀ c ∈ buildConstraints df cfg, holds w c) ↔ specFeasible df cfg w := by
  have hrep : dot (List.replicate df.length 1) w = w.sum := by
    rw [← h]; exact dot_replicate_one w
  simp only [buildConstraints, List.forall_mem_cons, holds_vecGe, holds_vecLe,
    holds_eq, holds_ge, holds_le, List.forall₂_map_left_iff, sectorCons_spec,
    hrep, specFeasible]

/-- Witness for C4 at a concrete one-asset universe, default
configuration and the weight vector assigning everything to that
asset. -/
theorem buildConstraints_matches_spec_witness :
    (∀ c ∈ buildConstraints df0 (effectiveConfig none none), holds [1] c) ↔
      specFeasible df0 (effectiveConfig none none) [1] :=
  buildConstraints_matches_spec df0 (effectiveConfig none none) [1] rfl

/-- Counterexample for claim C1: with a backend that is infeasible only
for the zero-yield objective — the minus-100-basis-point scenario of
`df0` — the default three-scenario sweep does not return a mapping with
entries or failure markers for the other two labels; it raises, even
though the remaining two scenarios would each have solved successfully
on their own. -/
theorem run_scenarios_abort_cex :
    run_scenarios bkMixed df0 = Except.error PyError.typeError ∧
    build_and_solve bkMixed (bump_yields df0 0) none none "ECOS" =
      Except.ok ([1], { yield_ := 1/100, duration := 5, rating_num := 2 }) ∧
    build_and_solve bkMixed (bump_yields df0 100) none none "ECOS" =
      Except.ok ([1], { yield_ := 1/50, duration := 5, rating_num := 2 }) :=
  ⟨rfl, rfl, rfl⟩

/-- Claim C1 as amended: the first scenario whose solve raises aborts
the whole sweep — its error propagates out of `run_scenarios` and the
remaining shocks are never solved; no failure marker is recorded. -/
theorem run_scenarios_abort (bk : Backend) (df : List Asset) (s : ℤ)
    (rest : List ℤ) (e : PyError)
    (h : build_and_solve bk (bump_yields df s) none none "ECOS" = Except.error e) :
    run_scenarios bk df (s :: rest) = Except.error e := by
  simp [run_scenarios, h]

/-- Witness for the amended C1 at a concrete sweep whose first scenario
is infeasible. -/
theorem run_scenarios_abort_witness :
    run_scenarios bkInfeasible df0 [0, 100] = Except.error PyError.typeError :=
  run_scenarios_abort bkInfeasible df0 0 [100] PyError.typeError rfl

/-- Counterexample for claim C2: an infeasible report and an unbounded
report produce the identical untyped error — `build_and_solve` does not
surface distinct Infeasible / Unbounded conditions. -/
theorem build_and_solve_indistinct_cex :
    build_and_solve bkInfeasible df0 none none "ECOS" = Except.error PyError.typeError ∧
    build_and_solve bkUnbounded df0 none none "ECOS" = Except.error PyError.typeError ∧
    build_and_solve bkInfeasible df0 none none "ECOS" =
      build_and_solve bkUnbounded df0 none none "ECOS" :=
  ⟨rfl, rfl, rfl⟩

/-- Claim C2 as amended: when the backend reports infeasible or
unbounded, `build_and_solve` raises one and the same untyped error from
rounding the absent solution (the two conditions are not
distinguished); a numerical failure propagates the backend's
SolverError; and a weight vector is returned only when the backend
returned an optimal value, of which the result is the elementwise
rounding — never a partial or zero-filled vector on failure. -/
theorem build_and_solve_failure_modes :
    ∀ (bk : Backend) (df : List Asset) (sb : Option (List (String × ℚ × ℚ)))
      (db : Option (ℚ × ℚ)),
      (bk "ECOS" (buildConstraints df (effectiveConfig sb db)) (df.map Asset.yield_)
          = SolveOutcome.infeasible →
        build_and_solve bk df sb db "ECOS" = Except.error PyError.typeError) ∧
      (bk "ECOS" (buildConstraints df (effectiveConfig sb db)) (df.map Asset.yield_)
          = SolveOutcome.unbounded →
        build_and_solve bk df sb db "ECOS" = Except.error PyError.typeError) ∧
      (bk "ECOS" (buildConstraints df (effectiveConfig sb db)) (df.map Asset.yield_)
          = SolveOutcome.fail →
        build_and_solve bk df sb db "ECOS" = Except.error PyError.solverError) ∧
      (∀ w d, build_and_solve bk df sb db "ECOS" = Except.ok (w, d) →
        ∃ v, bk "ECOS" (buildConstraints df (effectiveConfig sb db)) (df.map Asset.yield_)
            = SolveOutcome.optimal v ∧ w = v.map roundTo10) := by
  intro bk df sb db
  have hattr : getattrCp "ECOS" = some (CpAttr.solverName "ECOS") := rfl
  refine ⟨?_, ?_, ?_, ?_⟩
  · intro h
    simp [build_and_solve, hattr, h]
  · intro h
    simp [build_and_solve, hattr, h]
  · intro h
    simp [build_and_solve, hattr, h]
  · intro w d h
    cases hbk : bk "ECOS" (buildConstraints df (effectiveConfig sb db))
        (df.map Asset.yield_) with
    | optimal v =>
      refine ⟨v, rfl, ?_⟩
      simp only [build_and_solve, hattr, hbk] at h
      by_cases hl : df.length = (v.map roundTo10).length
      · simp only [extract_diag, if_pos hl, Except.ok.injEq, Prod.mk.injEq] at h
        exact h.1.symm
      · simp only [extract_diag, if_neg hl] at h
        exact absurd h (by simp)
    | infeasible => simp [build_and_solve, hattr, hbk] at h
    | unbounded => simp [build_and_solve, hattr, hbk] at h
    | fail => simp [build_and_solve, hattr, hbk] at h

/-- Witness for the amended C2 at a concrete universe and a backend
that fails numerically. -/
theorem build_and_solve_failure_modes_witness :
    build_and_solve bkFail df0 none none "ECOS" = Except.error PyError.solverError :=
  (build_and_solve_failure_modes bkFail df0 none none).2.2.1 rfl

/-- Counterexample for claim C3: the string Variable does not name a
supported LP backend, yet the selection mechanism does not fail with an
UnsupportedSolver-style error at selection time — `getattr` resolves
the cvxpy attribute of that name and the arbitrary object is passed to
the solve call, which is where the failure happens. -/
theorem solver_selection_cex :
    "Variable" ∉ supportedSolvers ∧
    build_and_solve bk0 df0 none none "Variable" = Except.error PyError.solveCallError ∧
    build_and_solve bk0 df0 none none "Variable" ≠
      Except.error (PyError.attributeError "Variable") := by
  refine ⟨by decide, rfl, ?_⟩
  intro hcontra
  rw [show build_and_solve bk0 df0 none none "Variable"
      = Except.error PyError.solveCallError from rfl] at hcontra
  simp at hcontra

/-- Claim C3 as amended: a solver string naming no cvxpy attribute
raises AttributeError at the `getattr` lookup, before the backend is
ever invoked and with no silent fallback to a default backend; but a
string naming a non-solver cvxpy attribute passes the lookup, and the
failure only occurs inside the subsequent solve call. -/
theorem build_and_solve_getattr_selection :
    ∀ (bk : Backend) (df : List Asset) (sb : Option (List (String × ℚ × ℚ)))
      (db : Option (ℚ × ℚ)) (s : String),
      (getattrCp s = none →
        build_and_solve bk df sb db s = Except.error (PyError.attributeError s)) ∧
      (∀ t, getattrCp s = some (CpAttr.other t) →
        build_and_solve bk df sb db s = Except.error PyError.solveCallError) := by
  intro bk df sb db s
  constructor
  · intro h
    simp [build_and_solve, h]
  · intro t h
    simp [build_and_solve, h]

/-- Witness for the amended C3: the unknown name FOO raises at
selection; the non-solver attribute Maximize fails at the solve call
instead. -/
theorem build_and_solve_getattr_selection_witness :
    build_and_solve bk0 df0 none none "FOO" =
      Except.error (PyError.attributeError "FOO") ∧
    build_and_solve bk0 df0 none none "Maximize" =
      Except.error PyError.solveCallError :=
  ⟨(build_and_solve_getattr_selection bk0 df0 none none "FOO").1 rfl,
   (build_and_solve_getattr_selection bk0 df0 none none "Maximize").2 "Maximize" rfl⟩

/-- Counterexample for claim C5: no combination of the per-call
arguments of `build_and_solve` can alter the Same-Day floor or the
rating ceiling it uses — those two elements of the configuration
surface are not overridable per call. -/
theorem config_fixed_floor_ceiling_cex :
    ¬ ∃ (sb : Option (List (String × ℚ × ℚ))) (db : Option (ℚ × ℚ)),
      (effectiveConfig sb db).min_same_day ≠ MIN_SAME_DAY ∨
      (effectiveConfig sb db).max_rating_num ≠ MAX_RATING_NUM := by
  rintro ⟨sb, db, h | h⟩ <;> exact h rfl

/-- Claim C5 as amended: the sector bounds mapping, the duration bounds
pair and the solver identifier are overridable per call with the
process-wide constants as defaults, while the Same-Day floor and the
rating ceiling are always the process-wide constants. -/
theorem effectiveConfig_overrides :
    ∀ (sb : Option (List (String × ℚ × ℚ))) (db : Option (ℚ × ℚ))
      (sbv : List (String × ℚ × ℚ)) (dbv : ℚ × ℚ),
      (effectiveConfig (some sbv) db).sector_bounds = sbv ∧
      (effectiveConfig none db).sector_bounds = SECTOR_BOUNDS ∧
      (effectiveConfig sb (some dbv)).duration_bounds = dbv ∧
      (effectiveConfig sb none).duration_bounds = DURATION_BOUNDS ∧
      (effectiveConfig sb db).min_same_day = MIN_SAME_DAY ∧
      (effectiveConfig sb db).max_rating_num = MAX_RATING_NUM ∧
      ∀ (bk : Backend) (df : List Asset),
        build_and_solve bk df = build_and_solve bk df none none "ECOS" := by
  intro sb db sbv dbv
  exact ⟨rfl, rfl, rfl, rfl, rfl, rfl, fun _ _ => rfl⟩

/-- Counterexample for claim C6: a row whose quality string and
liquidity tier are unmapped is loaded without any error; both derived
fields are silently missing, and the builder's Same-Day mask then
treats the asset as a non-member of the bucket. -/
theorem load_assets_silent_nan_cex :
    load_assets qmap0 lmap0 [rawRow0] =
      [{ sector := "TSY", yield_ := 1/50, duration := 5, quality := "ZZZ",
         liquidity_tier := 99, asset_level_min_weight := 0,
         asset_level_max_weight := 1, quality_num := none,
         liquidity_label := none }] ∧
    sameDayMaskLoaded (load_assets qmap0 lmap0 [rawRow0]) = [0] :=
  ⟨rfl, rfl⟩

/-- Claim C6 as amended: `load_assets` performs no validation — it
returns one row per input row, copying the raw columns and deriving
`quality_num` and `liquidity_label` by dictionary lookup, which leaves
a missing value for any unmapped key; the Same-Day mask then assigns
zero to every row whose tier did not map to the Same Day label. -/
theorem load_assets_mapping :
    ∀ (qmap : List (String × ℚ)) (lmap : List (ℤ × String)) (rows : List RawRow),
      List.Forall₂ (fun (r : RawRow) (o : LoadedRow) =>
        o.sector = r.sector ∧ o.yield_ = r.yield_ ∧ o.duration = r.duration ∧
        o.quality = r.quality ∧ o.liquidity_tier = r.liquidity_tier ∧
        o.asset_level_min_weight = r.asset_level_min_weight ∧
        o.asset_level_max_weight = r.asset_level_max_weight ∧
        o.quality_num = List.lookup r.quality qmap ∧
        o.liquidity_label = List.lookup r.liquidity_tier lmap)
        rows (load_assets qmap lmap rows) ∧
      sameDayMaskLoaded (load_assets qmap lmap rows) =
        rows.map (fun r =>
          if List.lookup r.liquidity_tier lmap = some "Same Day"
          then (1 : ℚ) else 0) := by
  intro qmap lmap rows
  constructor
  · rw [load_assets, List.forall₂_map_right_iff]
    induction rows with
    | nil => exact List.Forall₂.nil
    | cons r rest ih =>
      exact List.Forall₂.cons ⟨rfl, rfl, rfl, rfl, rfl, rfl, rfl, rfl, rfl⟩ ih
  · simp [sameDayMaskLoaded, load_assets, List.map_map, Function.comp]

/-- Claim C7: bumping yields shifts every asset's yield by exactly
shock divided by ten thousand, uniformly, leaves every other field of
every asset unchanged, and preserves the length of the universe. The
embedding is pure, so the base universe itself is untouched. -/
theorem bump_yields_uniform_additive :
    ∀ (df : List Asset) (bp : ℤ),
      (bump_yields df bp).map Asset.yield_
          = df.map (fun a => a.yield_ + (bp : ℚ) / 10000) ∧
      (bump_yields df bp).map Asset.id = df.map Asset.id ∧
      (bump_yields df bp).map Asset.sector = df.map Asset.sector ∧
      (bump_yields df bp).map Asset.duration = df.map Asset.duration ∧
      (bump_yields df bp).map Asset.quality_num = df.map Asset.quality_num ∧
      (bump_yields df bp).map Asset.liquidity_label = df.map Asset.liquidity_label ∧
      (bump_yields df bp).map Asset.min_weight = df.map Asset.min_weight ∧
      (bump_yields df bp).map Asset.max_weight = df.map Asset.max_weight ∧
      (bump_yields df bp).length = df.length := by
  intro df bp
  refine ⟨?_, ?_, ?_, ?_, ?_, ?_, ?_, ?_, ?_⟩ <;>
    simp [bump_yields, List.map_map, Function.comp]

/-- Claim C8: the sweep's default shock list is minus 100, 0, plus 100;
labels carry an explicit sign so the labels of plus and minus 100
differ; and a successful scenario is recorded under its label with the
diagnostics of solving the bumped universe with all constraint
arguments left at their defaults. -/
theorem run_scenarios_labels_defaults :
    (∀ (bk : Backend) (df : List Asset),
      run_scenarios bk df = run_scenarios bk df [-100, 0, 100]) ∧
    shockLabel 100 = "+100bp" ∧
    shockLabel (-100) = "-100bp" ∧
    shockLabel 100 ≠ shockLabel (-100) ∧
    (∀ (bk : Backend) (df : List Asset) (shock : ℤ) (rest : List ℤ)
      (w : List ℚ) (d : Diag) (out : List (String × Diag)),
      build_and_solve bk (bump_yields df shock) none none "ECOS" = Except.ok (w, d) →
      run_scenarios bk df rest = Except.ok out →
      run_scenarios bk df (shock :: rest) =
        Except.ok ((shockLabel shock, d) :: out)) := by
  refine ⟨fun _ _ => rfl, rfl, rfl, by decide, ?_⟩
  intro bk df shock rest w d out h1 h2
  simp [run_scenarios, h1, h2]

/-- Witness for C8 at a one-shock sweep on the concrete universe. -/
theorem run_scenarios_labels_defaults_witness :
    run_scenarios bk0 df0 [100] =
      Except.ok [(shockLabel 100, { yield_ := 1/50, duration := 5, rating_num := 2 })] :=
  run_scenarios_labels_defaults.2.2.2.2 bk0 df0 100 [] [1]
    { yield_ := 1/50, duration := 5, rating_num := 2 } [] rfl rfl

lemma dot_eq_range_sum (a : List ℚ) :
    ∀ b : List ℚ,
      dot a b = ∑ i ∈ Finset.range a.length, a.getD i 0 * b.getD i 0 := by
  induction a with
  | nil => intro b; simp [dot]
  | cons x xs ih =>
    intro b
    cases b with
    | nil =>
      simp only [dot, List.zipWith_nil_right, List.sum_nil, List.length_cons]
      rw [Finset.sum_range_succ']
      simp [List.getD]
    | cons y ys =>
      simp only [dot, List.zipWith_cons_cons, List.sum_cons, List.length_cons]
      rw [Finset.sum_range_succ']
      simp only [List.getD_cons_succ, List.getD_cons_zero]
      rw [← dot, ih ys]
      exact add_comm _ _

/-- Claim C9: on matching lengths the diagnostics extraction returns
exactly the three scalars — the index-wise dot products of the yield,
duration and quality columns with the weights, summed over the full
common length (no truncation, no padding) — and on a dimension mismatch
it fails with an error rather than returning a value. The extraction is
a pure function of the universe and the weights. -/
theorem extract_diag_spec :
    ∀ (df : List Asset) (w : List ℚ),
      (df.length = w.length →
        extract_diag df w = Except.ok
          { yield_ := ∑ i ∈ Finset.range df.length,
              (df.map Asset.yield_).getD i 0 * w.getD i 0,
            duration := ∑ i ∈ Finset.range df.length,
              (df.map Asset.duration).getD i 0 * w.getD i 0,
            rating_num := ∑ i ∈ Finset.range df.length,
              (df.map Asset.quality_num).getD i 0 * w.getD i 0 }) ∧
      (df.length ≠ w.length →
        extract_diag df w = Except.error PyError.valueError) := by
  intro df w
  constructor
  · intro h
    simp only [extract_diag, if_pos h]
    have hy := dot_eq_range_sum (df.map Asset.yield_) w
    have hd := dot_eq_range_sum (df.map Asset.duration) w
    have hq := dot_eq_range_sum (df.map Asset.quality_num) w
    rw [List.length_map] at hy hd hq
    rw [hy, hd, hq]
  · intro h
    simp only [extract_diag, if_neg h]

/-- Witness for C9: a dimension mismatch on the concrete universe fails
with an error. -/
theorem extract_diag_spec_witness :
    extract_diag df0 [] = Except.error PyError.valueError :=
  (extract_diag_spec df0 []).2 (by decide)

/-- Claim C10: a zero shock is the identity on the universe, and two
successive shocks compose to the single shock by their sum. -/
theorem bump_yields_zero_and_additive :
    (∀ df : List Asset, bump_yields df 0 = df) ∧
    (∀ (df : List Asset) (a b : ℤ),
      bump_yields (bump_yields df a) b = bump_yields df (a + b)) := by
  constructor
  · intro df
    have h1 : ∀ a : Asset,
        ({ a with yield_ := a.yield_ + ((0 : ℤ) : ℚ) / 10000 }) = a := by
      intro a; simp
    simp [bump_yields, h1]
  · intro df a b
    simp only [bump_yields, List.map_map]
    have h2 : ((fun x : Asset => { x with yield_ := x.yield_ + (b : ℚ) / 10000 }) ∘
        (fun x : Asset => { x with yield_ := x.yield_ + (a : ℚ) / 10000 })) =
        fun x : Asset => { x with yield_ := x.yield_ + ((a + b : ℤ) : ℚ) / 10000 } := by
      funext x
      simp only [Function.comp_apply]
      congr 1
      push_cast
      ring
    rw [h2]

end BondOpt
